import Mathlib

/-!
# Verification of the hexstrike-ai command-execution engine

A shallow embedding, in Lean 4, of the core of `hexstrike_server.py`:

* `ProcessManager` — the registry of in-flight OS processes (`active_processes`),
  with register / update-progress / terminate / pause / resume / cleanup;
* `HexStrikeCache` — the TTL + capacity-bound LRU cache of command results,
  built on Python's `OrderedDict`;
* `EnhancedCommandExecutor.execute` — the monitored subprocess executor;
* `execute_command` — the caching facade around the executor.

Modelling conventions:

* Python dicts keyed by pid / cache key become association lists
  (`List (κ × α)`) with first-match lookup; a Python dict holds each key at
  most once, and all operations below preserve that.
* `OrderedDict` order is modelled by list order: the head is the oldest
  (least-recently-used) entry, the tail end the most recent.  `move_to_end`
  is erase-then-append; plain assignment `d[k] = v` updates in place when
  the key exists (keeping its position) and appends otherwise — exactly
  CPython's behaviour.
* Wall-clock instants (`time.time()`) are `Nat` parameters threaded
  explicitly; the clock is assumed monotone, so `now - timestamp` uses
  truncated subtraction only on in-order instants.
* `hashlib.md5(key_data).hexdigest()` is modelled by `key_data` itself
  (the hash is injective in intent; only key equality matters here).
* Python truthiness of a string (`if s:`) is `!s.isEmpty`.
-/

set_option autoImplicit false

namespace HexStrike

variable {κ : Type} [DecidableEq κ] {α : Type}

/-- First-match lookup in an association list (Python `d[k]` / `k in d`). -/
def keyLookup (k : κ) : List (κ × α) → Option α
  | [] => none
  | (k', v) :: rest => if k' = k then some v else keyLookup k rest

/-- Remove the first binding of `k` (Python `del d[k]`; dict keys are unique). -/
def keyErase (k : κ) : List (κ × α) → List (κ × α)
  | [] => []
  | (k', v) :: rest => if k' = k then rest else (k', v) :: keyErase k rest

/-- Python `d[k] = v` on an (ordered) dict: update in place when `k` is
present — keeping its position — otherwise append at the end. -/
def keyAssign (k : κ) (v : α) : List (κ × α) → List (κ × α)
  | [] => [(k, v)]
  | (k', w) :: rest =>
    if k' = k then (k', v) :: rest else (k', w) :: keyAssign k v rest

@[simp] theorem keyLookup_nil (k : κ) : keyLookup k ([] : List (κ × α)) = none := rfl

@[simp] theorem keyLookup_cons (k k' : κ) (v : α) (rest : List (κ × α)) :
    keyLookup k ((k', v) :: rest) = if k' = k then some v else keyLookup k rest := rfl

@[simp] theorem keyErase_cons (k k' : κ) (v : α) (rest : List (κ × α)) :
    keyErase k ((k', v) :: rest) = if k' = k then rest else (k', v) :: keyErase k rest := rfl

@[simp] theorem keyAssign_cons (k k' : κ) (v w : α) (rest : List (κ × α)) :
    keyAssign k v ((k', w) :: rest) =
      if k' = k then (k', v) :: rest else (k', w) :: keyAssign k v rest := rfl

theorem keyLookup_keyAssign (k a : κ) (v : α) (l : List (κ × α)) :
    keyLookup a (keyAssign k v l) = if k = a then some v else keyLookup a l := by
  induction l with
  | nil => by_cases h : k = a <;> simp [keyAssign, keyLookup, h]
  | cons hd tl ih =>
    obtain ⟨k', w⟩ := hd
    by_cases hk : k' = k
    · subst hk
      by_cases ha : k' = a <;> simp [keyAssign, keyLookup, ha]
    · by_cases ha : k' = a
      · subst ha
        have : ¬ k = k' := fun h => hk h.symm
        simp [keyAssign, keyLookup, hk, this]
      · simp [keyAssign, keyLookup, hk, ha, ih]

theorem keyAssign_length_of_mem (k : κ) (v : α) (l : List (κ × α))
    (h : (keyLookup k l).isSome = true) :
    (keyAssign k v l).length = l.length := by
  induction l with
  | nil => simp [keyLookup] at h
  | cons hd tl ih =>
    obtain ⟨k', w⟩ := hd
    by_cases hk : k' = k
    · simp [keyAssign, hk]
    · simp [keyLookup, hk] at h
      simp [keyAssign, hk, ih h]

theorem keyAssign_of_not_mem (k : κ) (v : α) (l : List (κ × α))
    (h : keyLookup k l = none) :
    keyAssign k v l = l ++ [(k, v)] := by
  induction l with
  | nil => rfl
  | cons hd tl ih =>
    obtain ⟨k', w⟩ := hd
    by_cases hk : k' = k
    · simp [keyLookup, hk] at h
    · simp [keyLookup, hk] at h
      simp [keyAssign, hk, ih h]

theorem keyErase_length (k : κ) (l : List (κ × α))
    (h : (keyLookup k l).isSome = true) :
    (keyErase k l).length + 1 = l.length := by
  induction l with
  | nil => simp [keyLookup] at h
  | cons hd tl ih =>
    obtain ⟨k', w⟩ := hd
    by_cases hk : k' = k
    · simp [keyErase, hk]
    · simp [keyLookup, hk] at h
      simp [keyErase, hk, ih h]

/-! ## The result cache (`HexStrikeCache`, hexstrike_server.py, class `HexStrikeCache`)

`self.cache` is an `OrderedDict` mapping a key derived from
`(command, params)` to the pair `(timestamp, data)`.  We model it as an
ordered association list whose head is the least recently used entry.
The payload type is a parameter `α` (the server stores result dicts). -/

/-- Module-level configuration constants (hexstrike_server.py). -/
def COMMAND_TIMEOUT : Nat := 300

def CACHE_SIZE : Nat := 1000

def CACHE_TTL : Nat := 3600

/-- `HexStrikeCache._generate_key`: the Python code hashes
`f"\x7bcommand\x7d:\x7bjson.dumps(params, sort_keys=True)\x7d"` with md5;
we model the (intent-injective) hash by the pre-image string, taking the
canonical JSON text of the params as given. -/
def generate_key (command : String) (params : String) : String :=
  command ++ ":" ++ params

/-- `json.dumps(\x7b\x7d, sort_keys=True)` — the canonical text of the empty
params dict, which is what `execute_command` always passes. -/
def emptyParamsJson : String := "\x7b\x7d"

structure HexStrikeCache (α : Type) where
  cache : List (String × Nat × α)
  max_size : Nat
  ttl : Nat
  hits : Nat
  misses : Nat
  evictions : Nat
deriving DecidableEq

/-- `HexStrikeCache._is_expired`: `time.time() - timestamp > self.ttl`. -/
def HexStrikeCache.is_expired {α : Type} (c : HexStrikeCache α) (now ts : Nat) : Bool :=
  c.ttl < now - ts

/-- `HexStrikeCache.get`: on a fresh hit, `move_to_end` (erase + append) and
count a hit; on an expired hit, delete the entry and fall through to the
miss path; on absence, count a miss. -/
def HexStrikeCache.get {α : Type} (c : HexStrikeCache α) (now : Nat)
    (command : String) (params : String) : Option α × HexStrikeCache α :=
  let key := generate_key command params
  match keyLookup key c.cache with
  | some (ts, data) =>
    if c.is_expired now ts then
      (none, { c with cache := keyErase key c.cache, misses := c.misses + 1 })
    else
      (some data,
       { c with cache := keyErase key c.cache ++ [(key, (ts, data))],
                hits := c.hits + 1 })
  | none => (none, { c with misses := c.misses + 1 })

/-- The `while len(self.cache) >= self.max_size:` loop in
`HexStrikeCache.set`: repeatedly delete the oldest entry (the head),
returning the pruned dict and the number of evictions counted. -/
def evictLoop {α : Type} (max_size : Nat) : List (String × Nat × α) → List (String × Nat × α) × Nat
  | [] => ([], 0)
  | x :: xs =>
    if max_size ≤ (x :: xs).length then
      ((evictLoop max_size xs).1, (evictLoop max_size xs).2 + 1)
    else (x :: xs, 0)

/-- `HexStrikeCache.set`: evict oldest entries while at capacity, then
`self.cache[key] = (time.time(), result)`. -/
def HexStrikeCache.set {α : Type} (c : HexStrikeCache α) (now : Nat)
    (command : String) (params : String) (result : α) : HexStrikeCache α :=
  let key := generate_key command params
  let pruned := evictLoop c.max_size c.cache
  { c with cache := keyAssign key (now, result) pruned.1,
           evictions := c.evictions + pruned.2 }

/-- The numeric fields of `HexStrikeCache.get_stats` (the formatted
`hit_rate` string is presentation only). -/
structure CacheStats where
  size : Nat
  max_size : Nat
  hits : Nat
  misses : Nat
  evictions : Nat
deriving DecidableEq

def HexStrikeCache.get_stats {α : Type} (c : HexStrikeCache α) : CacheStats :=
  { size := c.cache.length, max_size := c.max_size,
    hits := c.hits, misses := c.misses, evictions := c.evictions }

/-! ## The process registry (`ProcessManager` over `active_processes`)

`active_processes` is a pid-keyed dict of per-process info dicts; we model
it as an association list `List (Nat × ProcInfo)`.  The stored
`subprocess.Popen` handle is abstracted to the one observation the code
makes of it — `process_obj.poll() is None`, i.e. whether the OS process is
still alive — recorded in the `alive` field; killing a process flips it.
The `runtime`/`eta` keys are absent until the first progress update, hence
`Option`.  `eta` is numeric in the code (a float); `EtaValue` also has an
`unknown` constructor so that the spec's claimed "unknown" value is even
expressible — the code never produces it. -/

inductive EtaValue where
  | num (q : ℚ)
  | unknown
deriving DecidableEq

structure ProcInfo where
  pid : Nat
  command : String
  alive : Bool
  start_time : Nat
  status : String
  progress : ℚ
  last_output : String
  bytes_processed : Nat
  runtime : Option Nat
  eta : Option EtaValue
deriving DecidableEq

/-- `ProcessManager.register_process`: insert a fresh info dict for `pid`
(dict assignment, so an existing entry for the pid would be replaced). -/
def ProcessManager.register_process (pid : Nat) (command : String) (now : Nat)
    (reg : List (Nat × ProcInfo)) : List (Nat × ProcInfo) :=
  keyAssign pid
    { pid := pid, command := command, alive := true, start_time := now,
      status := "running", progress := 0, last_output := "",
      bytes_processed := 0, runtime := none, eta := none } reg

/-- `ProcessManager.update_process_progress`: silently does nothing when the
pid is unknown; otherwise stores the new progress/last_output/bytes, the
recomputed runtime, and `eta = (runtime / progress) * (1.0 - progress)` when
`progress > 0` — the code initialises `eta = 0` and only overwrites it under
that guard, so `eta` is the number `0` (not "unknown") otherwise. -/
def ProcessManager.update_process_progress (pid : Nat) (progress : ℚ)
    (last_output : String) (bytes_processed : Nat) (now : Nat)
    (reg : List (Nat × ProcInfo)) : List (Nat × ProcInfo) :=
  match keyLookup pid reg with
  | none => reg
  | some r =>
    let runtime : Nat := now - r.start_time
    let eta : EtaValue :=
      if 0 < progress then EtaValue.num ((runtime / progress) * (1 - progress))
      else EtaValue.num 0
    keyAssign pid
      { r with progress := progress, last_output := last_output,
               bytes_processed := bytes_processed,
               runtime := some runtime, eta := some eta } reg

/-- `ProcessManager.terminate_process`: when the pid is registered and the
process is still alive (`poll() is None`), terminate it, give it a 1s grace
period, kill it if still alive — after which it is dead either way — set the
status to "terminated" and return `True`.  When the pid is unknown, or the
process has already exited, fall through to `return False` with the
registry untouched.  (The `except` arm only fires on OS-level signalling
errors, which the model leaves out.) -/
def ProcessManager.terminate_process (pid : Nat)
    (reg : List (Nat × ProcInfo)) : Bool × List (Nat × ProcInfo) :=
  match keyLookup pid reg with
  | none => (false, reg)
  | some r =>
    if r.alive then
      (true, keyAssign pid { r with alive := false, status := "terminated" } reg)
    else
      (false, reg)

/-- `ProcessManager.cleanup_process`: `active_processes.pop(pid)` — remove
and return the record, or `None` when absent. -/
def ProcessManager.cleanup_process (pid : Nat)
    (reg : List (Nat × ProcInfo)) : Option ProcInfo × List (Nat × ProcInfo) :=
  match keyLookup pid reg with
  | none => (none, reg)
  | some r => (some r, keyErase pid reg)

/-- `ProcessManager.get_process_status`: `active_processes.get(pid, None)`. -/
def ProcessManager.get_process_status (pid : Nat)
    (reg : List (Nat × ProcInfo)) : Option ProcInfo :=
  keyLookup pid reg

/-- `ProcessManager.pause_process`: gated solely on the pid being registered
and the process being alive (`poll() is None`) — the recorded status is not
consulted; on success sends SIGSTOP (a stopped process still has
`poll() is None`, so `alive` stays true), sets status "paused", returns
`True`; otherwise `False` with the registry untouched. -/
def ProcessManager.pause_process (pid : Nat)
    (reg : List (Nat × ProcInfo)) : Bool × List (Nat × ProcInfo) :=
  match keyLookup pid reg with
  | none => (false, reg)
  | some r =>
    if r.alive then
      (true, keyAssign pid { r with status := "paused" } reg)
    else
      (false, reg)

/-- `ProcessManager.resume_process`: same liveness gate as pause; on success
sends SIGCONT and sets status "running". -/
def ProcessManager.resume_process (pid : Nat)
    (reg : List (Nat × ProcInfo)) : Bool × List (Nat × ProcInfo) :=
  match keyLookup pid reg with
  | none => (false, reg)
  | some r =>
    if r.alive then
      (true, keyAssign pid { r with status := "running" } reg)
    else
      (false, reg)

/-! ## The executor (`EnhancedCommandExecutor.execute`)

The result dict the executor returns.  The Python `partial_results` value
is literally `self.timed_out and (self.stdout_data or self.stderr_data)` —
a string when truthy — and `success` on the timeout path is likewise the
truthiness of the captured output; both are modelled by their truth value.
The wall-clock `timestamp` string is omitted (presentation only). -/

structure ExecutionResult where
  stdout : String
  stderr : String
  return_code : Int
  success : Bool
  timed_out : Bool
  partial_results : Bool
  execution_time : Nat
deriving DecidableEq

/-- How a given run of the spawned OS process turns out — the environment's
half of `execute`.  `out`/`err` are the exact bytes the two drain threads
accumulated into `stdout_data`/`stderr_data` by the time the result is
assembled.

* `spawnError msg`: `subprocess.Popen` itself raises (missing binary,
  permission denied, bad working directory) with message `msg`;
* `postSpawnError msg out err`: an exception after the process was spawned
  and registered (caught by the same outer `except`);
* `completed rc out err dur`: `process.wait(timeout)` returns exit code
  `rc` after `dur` seconds;
* `timedOut out err`: `process.wait(timeout)` raises `TimeoutExpired`. -/
inductive SpawnOutcome where
  | spawnError (msg : String)
  | postSpawnError (msg : String) (out : String) (err : String)
  | completed (rc : Int) (out : String) (err : String) (dur : Nat)
  | timedOut (out : String) (err : String)
deriving DecidableEq

/-- Everything observable about one call to `execute`: the returned result
dict, the state of `active_processes` afterwards, whether an OS process was
spawned, and how many times `ProcessManager.cleanup_process` ran. -/
structure ExecOutcome where
  result : ExecutionResult
  registry : List (Nat × ProcInfo)
  spawned : Bool
  cleanup_calls : Nat
deriving DecidableEq

/-- Marks a registered process as no longer alive, without touching its
recorded status: the timeout path kills the OS process through the raw
`Popen` handle (`self.process.terminate()` / `.kill()`), never through
`ProcessManager`, so only future `poll()` observations change. -/
def markDead (pid : Nat) (reg : List (Nat × ProcInfo)) : List (Nat × ProcInfo) :=
  match keyLookup pid reg with
  | none => reg
  | some r => keyAssign pid { r with alive := false } reg

/-- `EnhancedCommandExecutor.execute`, path by path.

* Spawn failure: the outer `except` returns a failed result whose `stderr`
  is `"Error executing command: " ++ msg ++ "\n" ++ stderr_data` (here
  `stderr_data = ""` since no drain thread ever ran); nothing was
  registered and no cleanup runs.
* Exception after spawn: same `except` arm, but the pid was registered and
  is never cleaned up.
* Normal exit: join the drain threads, `ProcessManager.cleanup_process(pid)`
  (the only cleanup call in the function), `success = (return_code == 0)`,
  `partial_results = False` (Python `False and x` is `False`).
* Timeout (`subprocess.TimeoutExpired`): terminate/kill the raw handle,
  `return_code = -1`, `timed_out = True`; the shared result line
  `success = True if self.timed_out and (stdout_data or stderr_data) else
  (self.return_code == 0)` makes `success` (and `partial_results`) the
  truthiness of the captured output.  No cleanup call on this path: the
  pid's record stays in `active_processes` after `execute` returns.

The concurrent progress thread only ever calls `update_process_progress`,
which neither adds nor removes registry entries, so the registry membership
facts below are unaffected by its interleaving. -/
def EnhancedCommandExecutor.execute (command : String) (timeout : Nat)
    (pid : Nat) (outcome : SpawnOutcome) (now : Nat)
    (reg : List (Nat × ProcInfo)) : ExecOutcome :=
  match outcome with
  | .spawnError msg =>
    { result :=
        { stdout := "", stderr := "Error executing command: " ++ msg ++ "\n",
          return_code := -1, success := false, timed_out := false,
          partial_results := false, execution_time := 0 },
      registry := reg, spawned := false, cleanup_calls := 0 }
  | .postSpawnError msg out err =>
    { result :=
        { stdout := out,
          stderr := "Error executing command: " ++ msg ++ "\n" ++ err,
          return_code := -1, success := false, timed_out := false,
          partial_results := !(out.isEmpty && err.isEmpty),
          execution_time := 0 },
      registry := ProcessManager.register_process pid command now reg,
      spawned := true, cleanup_calls := 0 }
  | .completed rc out err dur =>
    let reg1 := ProcessManager.register_process pid command now reg
    let reg2 := (ProcessManager.cleanup_process pid reg1).2
    { result :=
        { stdout := out, stderr := err, return_code := rc,
          success := rc == 0, timed_out := false,
          partial_results := false, execution_time := dur },
      registry := reg2, spawned := true, cleanup_calls := 1 }
  | .timedOut out err =>
    let reg1 := ProcessManager.register_process pid command now reg
    { result :=
        { stdout := out, stderr := err, return_code := -1,
          success := !(out.isEmpty && err.isEmpty), timed_out := true,
          partial_results := !(out.isEmpty && err.isEmpty),
          execution_time := timeout },
      registry := markDead pid reg1, spawned := true, cleanup_calls := 0 }

/-- Everything observable about one call to the facade `execute_command`:
the returned result dict, the cache and registry afterwards, and whether a
subprocess was spawned by the call. -/
structure FacadeOutcome where
  result : ExecutionResult
  cache : HexStrikeCache ExecutionResult
  registry : List (Nat × ProcInfo)
  spawned : Bool
deriving DecidableEq

/-- The caching facade `execute_command(command, use_cache=True)`:
check the cache first (with the empty params dict), return a hit as is
(a result dict is a non-empty dict, so `if cached_result:` is exactly the
hit test); on a miss run `EnhancedCommandExecutor(command)` — default
timeout `COMMAND_TIMEOUT` — and cache the result only when
`result.get("success", False)` holds. -/
def execute_command (command : String) (use_cache : Bool)
    (outcome : SpawnOutcome) (pid : Nat) (now : Nat)
    (c : HexStrikeCache ExecutionResult) (reg : List (Nat × ProcInfo)) :
    FacadeOutcome :=
  if use_cache then
    let hit := c.get now command emptyParamsJson
    match hit.1 with
    | some cached_result =>
      { result := cached_result, cache := hit.2, registry := reg, spawned := false }
    | none =>
      let eo := EnhancedCommandExecutor.execute command COMMAND_TIMEOUT pid outcome now reg
      let c2 := if eo.result.success then hit.2.set now command emptyParamsJson eo.result
                else hit.2
      { result := eo.result, cache := c2, registry := eo.registry, spawned := true }
  else
    let eo := EnhancedCommandExecutor.execute command COMMAND_TIMEOUT pid outcome now reg
    { result := eo.result, cache := c, registry := eo.registry, spawned := true }

/-- The freshly constructed cache singleton `cache = HexStrikeCache()`. -/
def emptyCache (α : Type) : HexStrikeCache α :=
  { cache := [], max_size := CACHE_SIZE, ttl := CACHE_TTL,
    hits := 0, misses := 0, evictions := 0 }

/-- A throw-away registry record used to instantiate registry theorems. -/
def sampleProc (alive : Bool) (status : String) : ProcInfo :=
  { pid := 7, command := "nmap -sV 10.0.0.1", alive := alive,
    start_time := 2, status := status, progress := 0, last_output := "",
    bytes_processed := 0, runtime := none, eta := none }

/-!
# Theorems for the claims
-/

/-- C1: every execution that hits the internal timeout returns a result
with `timed_out = true`; its `success` and `partial_results` flags are both
exactly "some byte of stdout or stderr was captured before the kill", and
its `return_code` is `-1`, hence nonzero — so with output the result counts
as a success with partial results, and with no output it is a failure with
a nonzero return code. -/
theorem timeout_result_classification (command : String) (timeout pid now : Nat)
    (reg : List (Nat × ProcInfo)) (out err : String) :
    (EnhancedCommandExecutor.execute command timeout pid
        (SpawnOutcome.timedOut out err) now reg).result.timed_out = true ∧
    (EnhancedCommandExecutor.execute command timeout pid
        (SpawnOutcome.timedOut out err) now reg).result.success
      = !(out.isEmpty && err.isEmpty) ∧
    (EnhancedCommandExecutor.execute command timeout pid
        (SpawnOutcome.timedOut out err) now reg).result.partial_results
      = !(out.isEmpty && err.isEmpty) ∧
    (EnhancedCommandExecutor.execute command timeout pid
        (SpawnOutcome.timedOut out err) now reg).result.return_code = -1 ∧
    (EnhancedCommandExecutor.execute command timeout pid
        (SpawnOutcome.timedOut out err) now reg).result.return_code ≠ 0 :=
  ⟨rfl, rfl, rfl, rfl, show (-1 : Int) ≠ 0 by norm_num⟩

/-- C2 (registry leak): `execute` calls `ProcessManager.cleanup_process`
only on the normal-exit path.  On the timeout path — and on the
post-spawn exception path — no cleanup call is made, and the spawned pid
is still present in `active_processes` after `execute` returns; the claim
that cleanup runs exactly once on every path is violated by the code. -/
theorem timeout_path_skips_cleanup (command : String) (timeout pid now : Nat)
    (reg : List (Nat × ProcInfo)) (out err msg : String) (rc : Int) (dur : Nat) :
    (EnhancedCommandExecutor.execute command timeout pid
        (SpawnOutcome.timedOut out err) now reg).cleanup_calls = 0 ∧
    (ProcessManager.get_process_status pid
        (EnhancedCommandExecutor.execute command timeout pid
          (SpawnOutcome.timedOut out err) now reg).registry).isSome = true ∧
    (EnhancedCommandExecutor.execute command timeout pid
        (SpawnOutcome.postSpawnError msg out err) now reg).cleanup_calls = 0 ∧
    (ProcessManager.get_process_status pid
        (EnhancedCommandExecutor.execute command timeout pid
          (SpawnOutcome.postSpawnError msg out err) now reg).registry).isSome = true ∧
    (EnhancedCommandExecutor.execute command timeout pid
        (SpawnOutcome.completed rc out err dur) now reg).cleanup_calls = 1 := by
  refine ⟨rfl, ?_, rfl, ?_, rfl⟩
  · show (ProcessManager.get_process_status pid
      (markDead pid (ProcessManager.register_process pid command now reg))).isSome = true
    unfold ProcessManager.get_process_status markDead ProcessManager.register_process
    rw [keyLookup_keyAssign]
    simp [keyLookup_keyAssign]
  · show (ProcessManager.get_process_status pid
      (ProcessManager.register_process pid command now reg)).isSome = true
    unfold ProcessManager.get_process_status ProcessManager.register_process
    simp [keyLookup_keyAssign]

/-- C9: a spawn failure (missing binary, permission denied, bad working
directory) is caught inside `execute` and returned as a well-formed failed
result — `success = false`, `timed_out = false`, `return_code = -1` — with
the exception text embedded in `stderr`; the registry is untouched, no
process was spawned, and no exception escapes (the model function is total
and this branch returns normally). -/
theorem spawn_failure_contained (command : String) (timeout pid now : Nat)
    (reg : List (Nat × ProcInfo)) (msg : String) :
    (EnhancedCommandExecutor.execute command timeout pid
        (SpawnOutcome.spawnError msg) now reg).result.success = false ∧
    (EnhancedCommandExecutor.execute command timeout pid
        (SpawnOutcome.spawnError msg) now reg).result.timed_out = false ∧
    (EnhancedCommandExecutor.execute command timeout pid
        (SpawnOutcome.spawnError msg) now reg).result.return_code = -1 ∧
    (∃ pre post, (EnhancedCommandExecutor.execute command timeout pid
        (SpawnOutcome.spawnError msg) now reg).result.stderr = pre ++ msg ++ post) ∧
    (EnhancedCommandExecutor.execute command timeout pid
        (SpawnOutcome.spawnError msg) now reg).registry = reg ∧
    (EnhancedCommandExecutor.execute command timeout pid
        (SpawnOutcome.spawnError msg) now reg).spawned = false :=
  ⟨rfl, rfl, rfl, ⟨"Error executing command: ", "\n", rfl⟩, rfl, rfl⟩

/-- C3 counterexample: updating a registered pid with `progress = 0` sets
`eta` to the number `0`, not to "unknown" — the code initialises `eta = 0`
and only overwrites it when `progress > 0`. -/
theorem update_progress_zero_eta_is_zero :
    (ProcessManager.get_process_status 7
        (ProcessManager.update_process_progress 7 0 "" 0 5
          [(7, sampleProc true "running")])).map ProcInfo.eta
      = some (some (EtaValue.num 0)) ∧
    ¬ ((ProcessManager.get_process_status 7
        (ProcessManager.update_process_progress 7 0 "" 0 5
          [(7, sampleProc true "running")])).map ProcInfo.eta
      = some (some EtaValue.unknown)) := by
  constructor
  · rfl
  · intro h
    simp [ProcessManager.get_process_status, ProcessManager.update_process_progress,
      sampleProc, keyLookup, keyAssign] at h

/-- C3 (amended): `update_process_progress` is a silent no-op on an
unregistered pid; on a registered pid it stores the new progress, output
snippet and byte count, recomputes `runtime = now - start_time`, sets
`eta = runtime/progress * (1 - progress)` when `progress > 0` and `eta = 0`
(a number, not "unknown") when `progress = 0`, and leaves every other pid's
record untouched. -/
theorem update_progress_spec (pid : Nat) (progress : ℚ) (lo : String)
    (bp now : Nat) (reg : List (Nat × ProcInfo)) :
    (keyLookup pid reg = none →
      ProcessManager.update_process_progress pid progress lo bp now reg = reg) ∧
    (∀ r, keyLookup pid reg = some r →
      ProcessManager.get_process_status pid
          (ProcessManager.update_process_progress pid progress lo bp now reg)
        = some { r with progress := progress, last_output := lo,
                        bytes_processed := bp,
                        runtime := some (now - r.start_time),
                        eta := some (if 0 < progress
                          then EtaValue.num
                            ((((now - r.start_time : Nat) : ℚ) / progress) * (1 - progress))
                          else EtaValue.num 0) } ∧
      ∀ q, q ≠ pid →
        ProcessManager.get_process_status q
            (ProcessManager.update_process_progress pid progress lo bp now reg)
          = ProcessManager.get_process_status q reg) := by
  constructor
  · intro h
    unfold ProcessManager.update_process_progress
    rw [h]
  · intro r h
    constructor
    · unfold ProcessManager.get_process_status ProcessManager.update_process_progress
      rw [h, keyLookup_keyAssign]
      simp
    · intro q hq
      unfold ProcessManager.get_process_status ProcessManager.update_process_progress
      rw [h, keyLookup_keyAssign, if_neg (fun h' => hq h'.symm)]

/-- Witness for `update_progress_spec`: the no-op half at an absent pid,
and the update half at pid 7 with `progress = 1/2` at `now = 10`
(`runtime = 8`, `eta = 8/(1/2) * (1/2) = 8`). -/
theorem update_progress_spec_witness :
    ProcessManager.update_process_progress 9 (1/2) "x" 3 10
        [(7, sampleProc true "running")]
      = [(7, sampleProc true "running")] ∧
    ProcessManager.get_process_status 7
        (ProcessManager.update_process_progress 7 (1/2) "x" 3 10
          [(7, sampleProc true "running")])
      = some { sampleProc true "running" with
                 progress := 1/2, last_output := "x", bytes_processed := 3,
                 runtime := some 8, eta := some (EtaValue.num 8) } := by
  constructor
  · exact (update_progress_spec 9 (1/2) "x" 3 10
      [(7, sampleProc true "running")]).1 (by decide)
  · have h := ((update_progress_spec 7 (1/2) "x" 3 10
      [(7, sampleProc true "running")]).2 (sampleProc true "running") (by decide)).1
    rw [h]
    norm_num [sampleProc]

/-- C4 counterexample: `pause_process` on a record whose status is already
"paused" (and whose OS process is alive) returns `true` — and likewise
`resume_process` on a "running" record — because both operations are gated
on `poll() is None`, never on the recorded status; the claim that each is a
no-op returning `false` outside Running/Paused respectively is false. -/
theorem pause_resume_ignore_status :
    (ProcessManager.pause_process 7 [(7, sampleProc true "paused")]).1 = true ∧
    (ProcessManager.get_process_status 7
        (ProcessManager.pause_process 7 [(7, sampleProc true "paused")]).2).map
        ProcInfo.status = some "paused" ∧
    (ProcessManager.resume_process 7 [(7, sampleProc true "running")]).1 = true :=
  ⟨rfl, rfl, rfl⟩

/-- C4 (amended): `pause_process` and `resume_process` succeed exactly when
the pid is registered and its OS process is still alive (`poll() is None`),
irrespective of the recorded status — so pausing an already-paused process
or resuming a running one also "succeeds".  When the pid is unknown or the
process has exited — in particular for a record that `terminate_process`
has marked Terminated, since it also marks the process dead — each returns
`false` and leaves the registry, statuses included, unchanged. -/
theorem pause_resume_liveness_gate (pid : Nat) (reg : List (Nat × ProcInfo)) :
    (keyLookup pid reg = none →
      ProcessManager.pause_process pid reg = (false, reg) ∧
      ProcessManager.resume_process pid reg = (false, reg)) ∧
    (∀ r, keyLookup pid reg = some r →
      (r.alive = false →
        ProcessManager.pause_process pid reg = (false, reg) ∧
        ProcessManager.resume_process pid reg = (false, reg)) ∧
      (r.alive = true →
        (ProcessManager.pause_process pid reg).1 = true ∧
        ProcessManager.get_process_status pid
            (ProcessManager.pause_process pid reg).2
          = some { r with status := "paused" } ∧
        (ProcessManager.resume_process pid reg).1 = true ∧
        ProcessManager.get_process_status pid
            (ProcessManager.resume_process pid reg).2
          = some { r with status := "running" })) := by
  constructor
  · intro h
    simp [ProcessManager.pause_process, ProcessManager.resume_process, h]
  · intro r h
    constructor
    · intro hdead
      simp [ProcessManager.pause_process, ProcessManager.resume_process, h, hdead]
    · intro halive
      simp [ProcessManager.pause_process, ProcessManager.resume_process,
        ProcessManager.get_process_status, h, halive, keyLookup_keyAssign]

/-- Witness for `pause_resume_liveness_gate`: an unknown pid, a dead
process, and a live one, each at concrete registries. -/
theorem pause_resume_liveness_gate_witness :
    ProcessManager.pause_process 9 [] = (false, []) ∧
    ProcessManager.resume_process 7 [(7, sampleProc false "running")]
      = (false, [(7, sampleProc false "running")]) ∧
    (ProcessManager.pause_process 7 [(7, sampleProc true "running")]).1 = true ∧
    ProcessManager.get_process_status 7
        (ProcessManager.pause_process 7 [(7, sampleProc true "running")]).2
      = some { sampleProc true "running" with status := "paused" } := by
  refine ⟨(pause_resume_liveness_gate 9 []).1 (by decide) |>.1,
    ((pause_resume_liveness_gate 7 [(7, sampleProc false "running")]).2
      (sampleProc false "running") (by decide)).1 (by decide) |>.2,
    ?_, ?_⟩
  · exact (((pause_resume_liveness_gate 7 [(7, sampleProc true "running")]).2
      (sampleProc true "running") (by decide)).2 (by decide)).1
  · exact (((pause_resume_liveness_gate 7 [(7, sampleProc true "running")]).2
      (sampleProc true "running") (by decide)).2 (by decide)).2.1

/-- A `terminate_process` call that finds the process already dead
(`poll()` non-None) falls through to `return False` without touching the
registry. -/
theorem terminate_process_dead (pid : Nat) (reg : List (Nat × ProcInfo))
    (r : ProcInfo) (h : keyLookup pid reg = some r) (hd : r.alive = false) :
    ProcessManager.terminate_process pid reg = (false, reg) := by
  simp [ProcessManager.terminate_process, h, hd]

/-- C5: on a registered pid whose process is alive, `terminate_process`
returns `true` and marks the record Terminated (and the process dead); a
second call finds `poll()` non-None, falls through to `return False`, and
leaves the registry — status "terminated" included — exactly as it was.
The model function is total: no exception is raised on either call. -/
theorem terminate_twice_idempotent (pid : Nat) (reg : List (Nat × ProcInfo))
    (r : ProcInfo) (hreg : keyLookup pid reg = some r)
    (halive : r.alive = true) :
    (ProcessManager.terminate_process pid reg).1 = true ∧
    ProcessManager.get_process_status pid
        (ProcessManager.terminate_process pid reg).2
      = some { r with alive := false, status := "terminated" } ∧
    (ProcessManager.terminate_process pid
        (ProcessManager.terminate_process pid reg).2).1 = false ∧
    (ProcessManager.terminate_process pid
        (ProcessManager.terminate_process pid reg).2).2
      = (ProcessManager.terminate_process pid reg).2 := by
  have h2 : keyLookup pid (ProcessManager.terminate_process pid reg).2
      = some { r with alive := false, status := "terminated" } := by
    simp [ProcessManager.terminate_process, hreg, halive, keyLookup_keyAssign]
  have hsecond := terminate_process_dead pid
    (ProcessManager.terminate_process pid reg).2
    { r with alive := false, status := "terminated" } h2 rfl
  refine ⟨?_, h2, ?_, ?_⟩
  · simp [ProcessManager.terminate_process, hreg, halive]
  · rw [hsecond]
  · rw [hsecond]

/-- Witness for `terminate_twice_idempotent` at a concrete one-entry
registry. -/
theorem terminate_twice_idempotent_witness :
    (ProcessManager.terminate_process 7 [(7, sampleProc true "running")]).1 = true ∧
    ProcessManager.get_process_status 7
        (ProcessManager.terminate_process 7 [(7, sampleProc true "running")]).2
      = some { sampleProc true "running" with alive := false, status := "terminated" } ∧
    (ProcessManager.terminate_process 7
        (ProcessManager.terminate_process 7 [(7, sampleProc true "running")]).2).1 = false ∧
    (ProcessManager.terminate_process 7
        (ProcessManager.terminate_process 7 [(7, sampleProc true "running")]).2).2
      = (ProcessManager.terminate_process 7 [(7, sampleProc true "running")]).2 :=
  terminate_twice_idempotent 7 [(7, sampleProc true "running")]
    (sampleProc true "running") (by decide) (by decide)

/-- C6: `get` never returns an entry past its TTL — when the stored
timestamp has expired at lookup time, `get` deletes the entry, counts the
lookup as a miss, returns a miss, and the reported `size` statistic drops
by one. -/
theorem cache_expired_entry_purged (α : Type) (c : HexStrikeCache α)
    (now : Nat) (command params : String) (ts : Nat) (data : α)
    (hfound : keyLookup (generate_key command params) c.cache = some (ts, data))
    (hexp : c.is_expired now ts = true) :
    (c.get now command params).1 = none ∧
    (c.get now command params).2.misses = c.misses + 1 ∧
    (c.get now command params).2.cache
      = keyErase (generate_key command params) c.cache ∧
    (c.get now command params).2.get_stats.size + 1 = c.get_stats.size := by
  have hget : c.get now command params
      = (none, { c with cache := keyErase (generate_key command params) c.cache,
                        misses := c.misses + 1 }) := by
    simp [HexStrikeCache.get, hfound, hexp]
  rw [hget]
  refine ⟨rfl, rfl, rfl, ?_⟩
  show (keyErase (generate_key command params) c.cache).length + 1 = c.cache.length
  exact keyErase_length _ _ (by rw [hfound]; rfl)

/-- A one-entry cache whose sole entry is stale by time 10 (ttl 3,
stored at 0). -/
def oneEntryCache : HexStrikeCache Nat :=
  { cache := [("c:p", (0, 42))], max_size := 10, ttl := 3,
    hits := 0, misses := 0, evictions := 0 }

/-- Witness for `cache_expired_entry_purged` on `oneEntryCache` at
time 10. -/
theorem cache_expired_entry_purged_witness :
    (oneEntryCache.get 10 "c" "p").1 = none ∧
    (oneEntryCache.get 10 "c" "p").2.misses = oneEntryCache.misses + 1 ∧
    (oneEntryCache.get 10 "c" "p").2.cache = keyErase (generate_key "c" "p") oneEntryCache.cache ∧
    (oneEntryCache.get 10 "c" "p").2.get_stats.size + 1 = oneEntryCache.get_stats.size :=
  cache_expired_entry_purged Nat oneEntryCache 10 "c" "p" 0 42 (by decide) (by decide)

/-- One pass of the capacity loop: on a dict exactly at `m` entries the
`while` body runs once, deleting the oldest (head) entry and counting one
eviction. -/
theorem evictLoop_at_capacity (α : Type) (e : String × Nat × α)
    (rest : List (String × Nat × α)) (m : Nat) (h : (e :: rest).length = m) :
    evictLoop m (e :: rest) = (rest, 1) := by
  have h1 : m ≤ (e :: rest).length := le_of_eq h.symm
  have h2 : evictLoop m rest = (rest, 0) := by
    cases rest with
    | nil => rfl
    | cons y ys =>
      have hlen : ys.length + 2 = m := by simpa using h
      have hlt : ¬ m ≤ (y :: ys).length := by
        simp only [List.length_cons]
        omega
      unfold evictLoop
      rw [if_neg hlt]
  unfold evictLoop
  rw [if_pos h1, h2]

/-- C7: at capacity, inserting a fresh key evicts exactly the
least-recently-used entry (the head) — the rest survive in order and the
new key lands at the most-recently-used end — counting one eviction; and a
successful unexpired `get` returns the stored payload and moves its entry
to the most-recently-used end, so a touched key outlives every untouched
one under subsequent evictions. -/
theorem cache_lru_eviction_and_recency (α : Type) (c : HexStrikeCache α)
    (now : Nat) (command params : String) (v : α)
    (e : String × Nat × α) (rest : List (String × Nat × α))
    (hcache : c.cache = e :: rest)
    (hfull : c.cache.length = c.max_size)
    (hfresh : keyLookup (generate_key command params) c.cache = none) :
    (c.set now command params v).cache
      = rest ++ [(generate_key command params, (now, v))] ∧
    (c.set now command params v).evictions = c.evictions + 1 ∧
    (∀ command' params' ts data,
      keyLookup (generate_key command' params') c.cache = some (ts, data) →
      c.is_expired now ts = false →
      (c.get now command' params').1 = some data ∧
      (c.get now command' params').2.cache
        = keyErase (generate_key command' params') c.cache
            ++ [(generate_key command' params', (ts, data))]) := by
  have hloop : evictLoop c.max_size c.cache = (rest, 1) := by
    rw [hcache]
    exact evictLoop_at_capacity α e rest c.max_size (hcache ▸ hfull)
  have hrest : keyLookup (generate_key command params) rest = none := by
    rw [hcache] at hfresh
    obtain ⟨k1, tv⟩ := e
    simp only [keyLookup_cons] at hfresh
    by_cases hk : k1 = generate_key command params
    · simp [hk] at hfresh
    · simpa [hk] using hfresh
  refine ⟨?_, ?_, ?_⟩
  · simp [HexStrikeCache.set, hloop, keyAssign_of_not_mem _ _ _ hrest]
  · simp [HexStrikeCache.set, hloop]
  · intro command' params' ts data h' hexp'
    constructor
    · simp [HexStrikeCache.get, h', hexp']
    · simp [HexStrikeCache.get, h', hexp']

/-- A full (capacity 2) cache holding an untouched oldest entry and a
newer one, for instantiating the LRU theorems. -/
def twoEntryCache : HexStrikeCache Nat :=
  { cache := [("a:1", (0, 10)), ("b:2", (5, 20))], max_size := 2, ttl := 100,
    hits := 3, misses := 4, evictions := 0 }

/-- Witness for `cache_lru_eviction_and_recency` on `twoEntryCache`:
inserting the fresh key "c:3" evicts exactly "a:1", and a `get` of "a:1"
returns its payload and moves it to the most-recently-used end. -/
theorem cache_lru_eviction_and_recency_witness :
    (twoEntryCache.set 6 "c" "3" 30).cache
      = [("b:2", (5, 20))] ++ [(generate_key "c" "3", (6, 30))] ∧
    (twoEntryCache.set 6 "c" "3" 30).evictions = twoEntryCache.evictions + 1 ∧
    (twoEntryCache.get 6 "a" "1").1 = some 10 ∧
    (twoEntryCache.get 6 "a" "1").2.cache
      = keyErase (generate_key "a" "1") twoEntryCache.cache
          ++ [(generate_key "a" "1", (0, 10))] := by
  have h := cache_lru_eviction_and_recency Nat twoEntryCache 6 "c" "3" 30
    ("a:1", (0, 10)) [("b:2", (5, 20))] rfl rfl (by decide)
  exact ⟨h.1, h.2.1, (h.2.2 "a" "1" 0 10 (by decide) (by decide)).1,
    (h.2.2 "a" "1" 0 10 (by decide) (by decide)).2⟩

/-- C10: when the cache is exactly at capacity, `set` on a key that is
already present still runs the eviction loop first, deleting the current
least-recently-used entry and counting an eviction, and only then
overwrites the existing key in place — so an unrelated live entry is lost
and the cache shrinks to `max_size - 1` even though no new slot was
needed. -/
theorem cache_overwrite_at_capacity_evicts (α : Type) (c : HexStrikeCache α)
    (now : Nat) (command params : String) (v : α)
    (e : String × Nat × α) (rest : List (String × Nat × α))
    (hcache : c.cache = e :: rest)
    (hfull : c.cache.length = c.max_size)
    (hne : e.1 ≠ generate_key command params)
    (hmem : (keyLookup (generate_key command params) rest).isSome = true) :
    (c.set now command params v).evictions = c.evictions + 1 ∧
    (c.set now command params v).get_stats.size + 1 = c.max_size ∧
    keyLookup (generate_key command params) (c.set now command params v).cache
      = some (now, v) ∧
    (keyLookup e.1 rest = none →
      keyLookup e.1 (c.set now command params v).cache = none) := by
  have hloop : evictLoop c.max_size c.cache = (rest, 1) := by
    rw [hcache]
    exact evictLoop_at_capacity α e rest c.max_size (hcache ▸ hfull)
  have hcache' : (c.set now command params v).cache
      = keyAssign (generate_key command params) (now, v) rest := by
    simp [HexStrikeCache.set, hloop]
  refine ⟨by simp [HexStrikeCache.set, hloop], ?_, ?_, ?_⟩
  · show (c.set now command params v).cache.length + 1 = c.max_size
    rw [hcache', keyAssign_length_of_mem _ _ _ hmem]
    rw [← hfull, hcache]
    rfl
  · rw [hcache', keyLookup_keyAssign]
    simp
  · intro hnone
    rw [hcache', keyLookup_keyAssign, if_neg (fun h' => hne h'.symm), hnone]

/-- A capacity-2 cache whose oldest entry "victim" is unrelated to the
already-present key "k:p". -/
def overwriteCache : HexStrikeCache Nat :=
  { cache := [("victim", (0, 1)), ("k:p", (0, 2))], max_size := 2, ttl := 100,
    hits := 0, misses := 0, evictions := 0 }

/-- Witness for `cache_overwrite_at_capacity_evicts` on `overwriteCache`:
overwriting the present key "k:p" evicts "victim" and shrinks the cache to
one entry. -/
theorem cache_overwrite_at_capacity_evicts_witness :
    (overwriteCache.set 9 "k" "p" 5).evictions = overwriteCache.evictions + 1 ∧
    (overwriteCache.set 9 "k" "p" 5).get_stats.size + 1 = overwriteCache.max_size ∧
    keyLookup (generate_key "k" "p") (overwriteCache.set 9 "k" "p" 5).cache
      = some (9, 5) ∧
    keyLookup "victim" (overwriteCache.set 9 "k" "p" 5).cache = none := by
  have h := cache_overwrite_at_capacity_evicts Nat overwriteCache 9 "k" "p" 5
    ("victim", (0, 1)) [("k:p", (0, 2))] rfl rfl (by decide) (by decide)
  exact ⟨h.1, h.2.1, h.2.2.1, h.2.2.2 (by decide)⟩

/-- A `get` that finds an unexpired entry returns its payload, moves the
entry to the most-recently-used end, and counts a hit. -/
theorem cache_get_hit (α : Type) (c : HexStrikeCache α) (now : Nat)
    (command params : String) (ts : Nat) (data : α)
    (h : keyLookup (generate_key command params) c.cache = some (ts, data))
    (hexp : c.is_expired now ts = false) :
    c.get now command params
      = (some data,
         { c with
           cache := (keyErase (generate_key command params) c.cache
             ++ [(generate_key command params, (ts, data))]),
           hits := c.hits + 1 }) := by
  simp [HexStrikeCache.get, h, hexp]

/-- C8: starting from a cache not yet holding the command, a first
`execute_command(command, use_cache=True)` whose execution succeeds spawns
a subprocess and stores its result; an immediately following identical call
(within the TTL) returns that very result from the cache, spawns nothing,
and the hit counter has increased by exactly one (the miss counter by
exactly one, from the first call). -/
theorem cached_rerun_no_second_spawn (command : String)
    (outcome outcome2 : SpawnOutcome) (pid pid2 t0 t1 : Nat)
    (c0 : HexStrikeCache ExecutionResult) (reg0 reg1 : List (Nat × ProcInfo))
    (r : ExecutionResult)
    (hr : (EnhancedCommandExecutor.execute command COMMAND_TIMEOUT pid outcome t0 reg0).result = r)
    (hfresh : keyLookup (generate_key command emptyParamsJson) c0.cache = none)
    (hsucc : r.success = true)
    (httl : t1 - t0 ≤ c0.ttl) :
    (execute_command command true outcome pid t0 c0 reg0).result = r ∧
    (execute_command command true outcome pid t0 c0 reg0).spawned = true ∧
    (execute_command command true outcome2 pid2 t1
        (execute_command command true outcome pid t0 c0 reg0).cache reg1).result = r ∧
    (execute_command command true outcome2 pid2 t1
        (execute_command command true outcome pid t0 c0 reg0).cache reg1).spawned = false ∧
    (execute_command command true outcome2 pid2 t1
        (execute_command command true outcome pid t0 c0 reg0).cache reg1).cache.hits
      = c0.hits + 1 ∧
    (execute_command command true outcome2 pid2 t1
        (execute_command command true outcome pid t0 c0 reg0).cache reg1).cache.misses
      = c0.misses + 1 := by
  have hget1 : c0.get t0 command emptyParamsJson
      = (none, { c0 with misses := c0.misses + 1 }) := by
    simp [HexStrikeCache.get, hfresh]
  have hcall1 : execute_command command true outcome pid t0 c0 reg0
      = { result := r,
          cache := HexStrikeCache.set { c0 with misses := c0.misses + 1 }
            t0 command emptyParamsJson r,
          registry := (EnhancedCommandExecutor.execute command COMMAND_TIMEOUT
            pid outcome t0 reg0).registry,
          spawned := true } := by
    simp [execute_command, hget1, hr, hsucc]
  have hlook : keyLookup (generate_key command emptyParamsJson)
      (HexStrikeCache.set { c0 with misses := c0.misses + 1 }
        t0 command emptyParamsJson r).cache
      = some (t0, r) := by
    simp [HexStrikeCache.set, keyLookup_keyAssign]
  have hexp2 : (HexStrikeCache.set { c0 with misses := c0.misses + 1 }
      t0 command emptyParamsJson r).is_expired t1 t0 = false := by
    simp [HexStrikeCache.set, HexStrikeCache.is_expired]
    omega
  have hget2 := cache_get_hit ExecutionResult
    (HexStrikeCache.set { c0 with misses := c0.misses + 1 }
      t0 command emptyParamsJson r)
    t1 command emptyParamsJson t0 r hlook hexp2
  have hcall2 : execute_command command true outcome2 pid2 t1
      (HexStrikeCache.set { c0 with misses := c0.misses + 1 }
        t0 command emptyParamsJson r) reg1
      = { result := r,
          cache :=
            { (HexStrikeCache.set { c0 with misses := c0.misses + 1 }
                t0 command emptyParamsJson r) with
              cache := (keyErase (generate_key command emptyParamsJson)
                  (HexStrikeCache.set { c0 with misses := c0.misses + 1 }
                    t0 command emptyParamsJson r).cache
                ++ [(generate_key command emptyParamsJson, (t0, r))]),
              hits := ((HexStrikeCache.set { c0 with misses := c0.misses + 1 }
                t0 command emptyParamsJson r).hits + 1) },
          registry := reg1, spawned := false } := by
    simp [execute_command, hget2]
  rw [hcall1]
  refine ⟨rfl, rfl, ?_, ?_, ?_, ?_⟩ <;>
    simp only [hcall2] <;> simp [HexStrikeCache.set]

/-- Witness for `cached_rerun_no_second_spawn`: "echo hello" completing
instantly with exit code 0 against the fresh cache singleton and an empty
registry, rerun at the same instant. -/
theorem cached_rerun_no_second_spawn_witness :
    (execute_command "echo hello" true
        (SpawnOutcome.completed 0 "hello\n" "" 1) 5 100
        (emptyCache ExecutionResult) []).spawned = true ∧
    (execute_command "echo hello" true
        (SpawnOutcome.completed 0 "hello\n" "" 1) 6 100
        (execute_command "echo hello" true
          (SpawnOutcome.completed 0 "hello\n" "" 1) 5 100
          (emptyCache ExecutionResult) []).cache []).result
      = (EnhancedCommandExecutor.execute "echo hello" COMMAND_TIMEOUT 5
          (SpawnOutcome.completed 0 "hello\n" "" 1) 100 []).result ∧
    (execute_command "echo hello" true
        (SpawnOutcome.completed 0 "hello\n" "" 1) 6 100
        (execute_command "echo hello" true
          (SpawnOutcome.completed 0 "hello\n" "" 1) 5 100
          (emptyCache ExecutionResult) []).cache []).spawned = false ∧
    (execute_command "echo hello" true
        (SpawnOutcome.completed 0 "hello\n" "" 1) 6 100
        (execute_command "echo hello" true
          (SpawnOutcome.completed 0 "hello\n" "" 1) 5 100
          (emptyCache ExecutionResult) []).cache []).cache.hits
      = (emptyCache ExecutionResult).hits + 1 ∧
    (execute_command "echo hello" true
        (SpawnOutcome.completed 0 "hello\n" "" 1) 6 100
        (execute_command "echo hello" true
          (SpawnOutcome.completed 0 "hello\n" "" 1) 5 100
          (emptyCache ExecutionResult) []).cache []).cache.misses
      = (emptyCache ExecutionResult).misses + 1 := by
  have h := cached_rerun_no_second_spawn "echo hello"
    (SpawnOutcome.completed 0 "hello\n" "" 1)
    (SpawnOutcome.completed 0 "hello\n" "" 1) 5 6 100 100
    (emptyCache ExecutionResult) [] []
    (EnhancedCommandExecutor.execute "echo hello" COMMAND_TIMEOUT 5
      (SpawnOutcome.completed 0 "hello\n" "" 1) 100 []).result
    rfl (by decide) (by decide) (by decide)
  exact ⟨h.2.1, h.2.2.1, h.2.2.2.1, h.2.2.2.2.1, h.2.2.2.2.2⟩

end HexStrike
